import Mathlib

/-!
Verification of the generation-orchestration layer of the
`gobley-uniffi-bindgen` crate (`src/crates/gobley-uniffi-bindgen/src/lib.rs`).

The embedding models:
* the TOML configuration document and the resolver `new_config`;
* the cross-component linking pass `update_component_configs`
  (std `HashMap` is embedded as an association list);
* the emission dispatcher `write_bindings` and the file-tree writer
  `write_bindings_target` (file-system and subprocess effects are embedded
  as explicit event traces).

Types and functions that live in the `gen_kotlin_multiplatform` module
(`Config` and its deserialization, `ConfigKotlinTarget`, `generate_bindings`,
`Config::package_name()`) are not part of the sources being verified; they
are modelled from the specification and carry a doc comment saying so.
-/

set_option autoImplicit false

/-- Modelled from the spec: the recognized platform targets of the
`ConfigKotlinTarget` enum in the missing `gen_kotlin_multiplatform` module —
"a managed-runtime target, a mobile-runtime target, and a
native/ahead-of-time target"; their TOML spellings are the lowercase names
(the repository's tests use `"jvm"`). -/
inductive ConfigKotlinTarget where
  | Jvm
  | Android
  | Native
  deriving DecidableEq, Repr

/-- Modelled from the spec: the `Config` struct of the missing
`gen_kotlin_multiplatform` module. Fields are the recognized configuration
keys: "package name (string), native-artifact name (string), multi-target
flag (boolean), target list (set of strings drawn from the recognized
platform enum), external package overrides (mapping from native-library
identity to package name string)". The `HashMap<String, String>` of
external packages is embedded as an association list. -/
structure Config where
  package_name : Option String
  cdylib_name : Option String
  kotlin_multiplatform : Bool
  kotlin_targets : List ConfigKotlinTarget
  external_packages : List (String × String)
  deriving DecidableEq, Repr

/-- The part of `uniffi_bindgen::ComponentInterface` this layer reads:
`namespace()` and `crate_name()`. -/
structure ComponentInterface where
  ns : String
  crate_name : String
  deriving DecidableEq, Repr

/-- The part of `uniffi_bindgen::Component` this layer reads. -/
structure Component where
  ci : ComponentInterface
  config : Config
  deriving DecidableEq, Repr

/-- The part of `uniffi_bindgen::GenerationSettings` this layer reads:
`cdylib`, `out_dir` and `try_format_code`. -/
structure GenerationSettings where
  cdylib : Option String
  out_dir : String
  try_format_code : Bool
  deriving DecidableEq, Repr

/-- A TOML value (`toml::value::Value`), restricted to the shapes the
configuration layer inspects. -/
inductive Toml where
  | str (s : String)
  | bool (b : Bool)
  | arr (elems : List Toml)
  | table (entries : List (String × Toml))

/-- First binding for a key in an association list. TOML tables have unique
keys, so this is the table lookup. -/
def lookupToml (k : String) : List (String × Toml) → Option Toml
  | [] => none
  | (k', v) :: rest => if k' = k then some v else lookupToml k rest

/-- The `toml::value::Value::get` operation: key lookup, `None` on non-table values. -/
def Toml.get (t : Toml) (k : String) : Option Toml :=
  match t with
  | .table entries => lookupToml k entries
  | _ => none

/-- Modelled from the spec: deserializing one string-typed field
("type mismatches on recognized keys fail with a Configuration Error
identifying the offending key"). -/
def asTomlString (key : String) : Toml → Except String String
  | .str s => .ok s
  | _ => .error ("type mismatch for key " ++ key)

/-- Modelled from the spec: deserializing one boolean-typed field. -/
def asTomlBool (key : String) : Toml → Except String Bool
  | .bool b => .ok b
  | _ => .error ("type mismatch for key " ++ key)

/-- Modelled from the spec: deserializing one platform-target string. -/
def asKotlinTarget : Toml → Except String ConfigKotlinTarget
  | .str "jvm" => .ok ConfigKotlinTarget.Jvm
  | .str "android" => .ok ConfigKotlinTarget.Android
  | .str "native" => .ok ConfigKotlinTarget.Native
  | _ => .error "type mismatch for key kotlin_targets"

/-- Modelled from the spec: deserializing the target list. -/
def asTargetList : Toml → Except String (List ConfigKotlinTarget)
  | .arr elems => elems.mapM asKotlinTarget
  | _ => .error "type mismatch for key kotlin_targets"

/-- Modelled from the spec: deserializing the external-package override
table ("mapping from native-library identity to package name string"). -/
def asStringTable (key : String) : Toml → Except String (List (String × String))
  | .table entries => entries.mapM (fun kv => do
      let v ← asTomlString key kv.2
      pure (kv.1, v))
  | _ => .error ("type mismatch for key " ++ key)

/-- Deserialize an optional field: an absent key yields `none`, a present
key of the wrong type is an error. -/
def optionalField {α : Type} (t : Toml) (key : String)
    (f : Toml → Except String α) : Except String (Option α) :=
  match t.get key with
  | none => .ok none
  | some v => do pure (some (← f v))

/-- Deserialize a field with a default for an absent key. -/
def defaultedField {α : Type} (t : Toml) (key : String) (dflt : α)
    (f : Toml → Except String α) : Except String α :=
  match t.get key with
  | none => .ok dflt
  | some v => f v

/-- Modelled from the spec: `Config`'s serde deserialization
(`kotlin_config.clone().try_into()` in `new_config`), absent from the
sources. Recognized keys are deserialized into the declared fields,
"unrecognized keys are ignored (forward compatibility); type mismatches on
recognized keys fail with a Configuration Error identifying the offending
key". Absent optional fields default to `none` / `false` / empty. A
non-table document cannot deserialize into a struct. -/
def tryIntoConfig (t : Toml) : Except String Config := do
  match t with
  | .table _ =>
    let pn ← optionalField t "package_name" (asTomlString "package_name")
    let cd ← optionalField t "cdylib_name" (asTomlString "cdylib_name")
    let multi ← defaultedField t "kotlin_multiplatform" false
      (asTomlBool "kotlin_multiplatform")
    let targets ← defaultedField t "kotlin_targets" [] asTargetList
    let ext ← defaultedField t "external_packages" []
      (asStringTable "external_packages")
    pure { package_name := pn, cdylib_name := cd,
           kotlin_multiplatform := multi, kotlin_targets := targets,
           external_packages := ext }
  | _ => .error "expected a table"

/-- Lines 45-48 of `lib.rs`: select the `[bindings.kotlin]` sub-tree when
present, otherwise fall back to the document root. -/
def selectKotlinConfig (root_toml : Toml) : Toml :=
  (((root_toml.get "bindings").bind (fun b => b.get "kotlin")).getD root_toml)

/-- The fixed default target list inserted by `new_config` (lines 57-61). -/
def defaultKotlinTargets : List ConfigKotlinTarget :=
  [ConfigKotlinTarget.Jvm, ConfigKotlinTarget.Android, ConfigKotlinTarget.Native]

/-- The `KotlinBindingGenerator::new_config` method (lines 43-66). The
`force_multiplatform` argument is the generator's field of that name. -/
def new_config (force_multiplatform : Bool) (root_toml : Toml) :
    Except String Config :=
  match tryIntoConfig (selectKotlinConfig root_toml) with
  | .error e => .error e
  | .ok config =>
    if force_multiplatform then
      if config.kotlin_targets.isEmpty then
        .ok { config with kotlin_multiplatform := true,
                          kotlin_targets := defaultKotlinTargets }
      else
        .ok { config with kotlin_multiplatform := true }
    else
      .ok config

/-! ## Cross-component linking (`update_component_configs`, lines 68-102) -/

/-- First value bound to a key in an association list (the lookup of the
embedded `HashMap<String, String>`). -/
def lookupKey (k : String) : List (String × String) → Option String
  | [] => none
  | (k', v) :: rest => if k' = k then some v else lookupKey k rest

/-- The `HashMap::contains_key` operation. -/
def containsKey (k : String) (m : List (String × String)) : Bool :=
  (lookupKey k m).isSome

/-- The `HashMap::insert` operation: overwrite the binding in place when the key is
present, append a new binding otherwise. -/
def hashInsert (m : List (String × String)) (kv : String × String) :
    List (String × String) :=
  if containsKey kv.1 m then
    m.map (fun p => if p.1 = kv.1 then kv else p)
  else
    m ++ [kv]

/-- The `HashMap::from_iter` call (line 85): sequential insertion, a later duplicate
key overwrites an earlier one. A Rust `HashMap` iterates in unspecified
order; the embedding iterates bindings in insertion order. -/
def hashMapFromIter (l : List (String × String)) : List (String × String) :=
  l.foldl hashInsert []

/-- Modelled from the spec: `Config::package_name()` of the missing
`gen_kotlin_multiplatform` module — the effective package name, "explicit
package name if set, otherwise a deterministic default". At every call site
in `lib.rs` the field has already been filled in by
`update_component_configs`, so the fallback constant is never observed. -/
def Config.package_name_eff (c : Config) : String :=
  c.package_name.getD "uniffi"

/-- Lines 73-83 of `lib.rs`: `get_or_insert_with` on `package_name`
(default `uniffi.<namespace>`) and on `cdylib_name` (default: the
build-wide `settings.cdylib` if supplied, else `uniffi_<namespace>`). -/
def resolve_names (settings : GenerationSettings) (c : Component) : Component :=
  { c with config := { c.config with
      package_name :=
        some (c.config.package_name.getD ("uniffi." ++ c.ci.ns)),
      cdylib_name :=
        some (c.config.cdylib_name.getD
          (settings.cdylib.getD ("uniffi_" ++ c.ci.ns))) } }

/-- Lines 85-89 of `lib.rs`: the total crate-name → package-name mapping. -/
def packagesOf (comps : List Component) : List (String × String) :=
  hashMapFromIter
    (comps.map (fun c => (c.ci.crate_name, c.config.package_name_eff)))

/-- The guard of the insertion on lines 92-94: the entry's crate is not the
component's own crate and is not already present in its map. -/
def freshFor (own : String) (m : List (String × String))
    (kv : String × String) : Bool :=
  decide (kv.1 ≠ own) && !(containsKey kv.1 m)

/-- One step of the insertion loop on lines 91-99. -/
def insertAbsent (own : String) (m : List (String × String))
    (kv : String × String) : List (String × String) :=
  if freshFor own m kv then m ++ [kv] else m

/-- Lines 90-100 of `lib.rs`: fold the insertion loop over the package
mapping for one component. -/
def linkExternals (packages : List (String × String)) (c : Component) :
    Component :=
  { c with config := { c.config with
      external_packages :=
        packages.foldl (insertAbsent c.ci.crate_name)
          c.config.external_packages } }

/-- The `KotlinBindingGenerator::update_component_configs` method (lines 68-102): the
first loop resolves names in place, then the package mapping is computed
over the resolved components and the insertion loop is run per component. -/
def update_component_configs (settings : GenerationSettings)
    (components : List Component) : List Component :=
  (components.map (resolve_names settings)).map
    (linkExternals (packagesOf (components.map (resolve_names settings))))

/-! ## File-tree writer (`write_bindings_target`, lines 135-168) and
emission dispatch (`write_bindings`, lines 104-132) -/

/-- Line 148: the emitted file name `<namespace>.<target>.kt`. -/
def bindingFileName (ci : ComponentInterface) (target : String) : String :=
  ci.ns ++ "." ++ target ++ ".kt"

/-- Lines 142-146: the source-set segment, `<target>Main` in multiplatform
mode, the fixed `main` otherwise. -/
def sourceSetName (config : Config) (target : String) : String :=
  if config.kotlin_multiplatform then target ++ "Main" else "main"

/-- Lines 147 and 150-153: the destination directory as path segments —
`out_dir`, the source-set segment, `kotlin`, then the package name split at
`'.'` (`Utf8PathBuf::join` of relative segments is embedded as segment
concatenation). -/
def destDir (settings : GenerationSettings) (config : Config)
    (target : String) : List String :=
  settings.out_dir :: sourceSetName config target :: "kotlin" ::
    config.package_name_eff.splitOn "."

/-- Line 154: the destination file path. -/
def destFilePath (ci : ComponentInterface) (settings : GenerationSettings)
    (config : Config) (target : String) : List String :=
  destDir settings config target ++ [bindingFileName ci target]

/-- One observable effect of the file-tree writer: the embedding of the
`fs`, `File` and `Command` calls. -/
inductive IOEvent where
  | createDir (path : List String)
  | fileWrite (path : List String) (content : String)
  | formatInvoke (path : List String)
  | warnFormat (path : List String)
  deriving DecidableEq, Repr

/-- The `write_bindings_target` function (lines 135-168) as its trace of effects:
create the directory, write the file, then, when `try_format_code` is set,
invoke `ktlint` on it. `ktlint_fails` is the outcome of the external
`Command` invocation (true = missing executable or spawn error); on failure
only a warning is printed (lines 161-166). -/
def write_bindings_target (ktlint_fails : Bool) (ci : ComponentInterface)
    (settings : GenerationSettings) (config : Config) (target : String)
    (content : String) : List IOEvent :=
  [IOEvent.createDir (destDir settings config target),
   IOEvent.fileWrite (destFilePath ci settings config target) content] ++
  (if settings.try_format_code then
    [IOEvent.formatInvoke (destFilePath ci settings config target)] ++
    (if ktlint_fails then
      [IOEvent.warnFormat (destFilePath ci settings config target)]
    else [])
  else [])

/-- Outcome of the external `Command::new("ktlint")...output()` call on
line 161: either the spawn itself fails (`Err` — e.g. the executable is
missing), or the process runs to completion and exits with the given
status code.  The source inspects only the `Err` case; the exit status
inside `Ok` is never read. -/
inductive KtlintOutcome where
  | spawnError
  | exited (code : Nat)
  deriving DecidableEq, Repr

/-- The `write_bindings_target` function (lines 135-168) with the
formatter outcome at full fidelity: identical to `write_bindings_target`
except that the `Command` outcome distinguishes a spawn error from an
exit status.  The warning on lines 162-165 is printed only on a spawn
error; a non-zero exit status is silently ignored. -/
def write_bindings_target_fmt (ktlint : KtlintOutcome)
    (ci : ComponentInterface) (settings : GenerationSettings)
    (config : Config) (target : String) (content : String) : List IOEvent :=
  [IOEvent.createDir (destDir settings config target),
   IOEvent.fileWrite (destFilePath ci settings config target) content] ++
  (if settings.try_format_code then
    [IOEvent.formatInvoke (destFilePath ci settings config target)] ++
    (match ktlint with
     | .spawnError =>
        [IOEvent.warnFormat (destFilePath ci settings config target)]
     | .exited _ => [])
  else [])

/-- The `write_cinterop` function (lines 170-180) as its trace of effects. -/
def write_cinterop (ci : ComponentInterface) (out_dir : String)
    (content : String) : List IOEvent :=
  [IOEvent.createDir
    [out_dir, "nativeInterop", "cinterop", "headers", ci.ns],
   IOEvent.fileWrite
    [out_dir, "nativeInterop", "cinterop", "headers", ci.ns, ci.ns ++ ".h"]
    content]

/-- Modelled from the spec: the `EmissionBundle` of the missing
`gen_kotlin_multiplatform` module — "a mandatory common text blob plus
optional blobs for each recognized platform variant and an optional
native-interop header blob" (the fields read on lines 112-128). -/
structure Bindings where
  common : String
  jvm : Option String
  android : Option String
  native : Option String
  stub : Option String
  header : Option String
  deriving DecidableEq, Repr

/-- A Generation Error, "tagged with the component's namespace". -/
structure GenError where
  ns : String
  msg : String
  deriving DecidableEq, Repr

/-- Modelled from the spec: `generate_bindings` of the missing
`gen_kotlin_multiplatform` module. Its internals are delegated to the
`gen` oracle; per the spec a failure "propagates ... as a Generation Error
tagged with the component's namespace". -/
def generate_bindings
    (gen : Config → ComponentInterface → Except String Bindings)
    (config : Config) (ci : ComponentInterface) : Except GenError Bindings :=
  match gen config ci with
  | .ok b => .ok b
  | .error m => .error ⟨ci.ns, m⟩

/-- The body of the loop on lines 109-129 once the bundle is obtained:
one `write_bindings_target` per present variant, then the cinterop
header. -/
def componentWrites (ktlint_fails : Bool) (settings : GenerationSettings)
    (c : Component) (b : Bindings) : List IOEvent :=
  write_bindings_target ktlint_fails c.ci settings c.config "common" b.common ++
  (match b.jvm with
   | none => []
   | some s => write_bindings_target ktlint_fails c.ci settings c.config "jvm" s) ++
  (match b.android with
   | none => []
   | some s => write_bindings_target ktlint_fails c.ci settings c.config "android" s) ++
  (match b.native with
   | none => []
   | some s => write_bindings_target ktlint_fails c.ci settings c.config "native" s) ++
  (match b.stub with
   | none => []
   | some s => write_bindings_target ktlint_fails c.ci settings c.config "stub" s) ++
  (match b.header with
   | none => []
   | some s => write_cinterop c.ci settings.out_dir s)

/-- The `write_bindings` method (lines 104-132): fold over the components; the `?` on
`generate_bindings` (line 110) aborts the loop, so the trace of the
components already processed has happened and an error is returned. -/
def write_bindings
    (gen : Config → ComponentInterface → Except String Bindings)
    (ktlint_fails : Bool) (settings : GenerationSettings) :
    List Component → List IOEvent × Option GenError
  | [] => ([], none)
  | c :: rest =>
    match generate_bindings gen c.config c.ci with
    | .error e => ([], some e)
    | .ok b =>
      let res := write_bindings gen ktlint_fails settings rest
      (componentWrites ktlint_fails settings c b ++ res.1, res.2)

/-- The concrete generator oracle of the witness for C8: fails exactly on
the namespace `bad`. -/
def genOracleW : Config → ComponentInterface → Except String Bindings :=
  fun _ ci =>
    if ci.ns = "bad" then Except.error "boom"
    else Except.ok ⟨"text", none, none, none, none, none⟩

/-! ## Theorems -/

theorem write_bindings_target_eq_fmt (fails : Bool) (ci : ComponentInterface)
    (settings : GenerationSettings) (config : Config)
    (target content : String) :
    write_bindings_target fails ci settings config target content =
      write_bindings_target_fmt
        (if fails then KtlintOutcome.spawnError else KtlintOutcome.exited 0)
        ci settings config target content := by
  cases fails <;> rfl

/-- C3 -- With the force-multiplatform flag set, any successfully resolved
config has its multi-target flag forced to `true`; when the document's own
(deserialized) target list is empty the result is exactly the three default
targets `[Jvm, Android, Native]` (each appearing once), and when it is
non-empty it is returned verbatim. -/
theorem new_config_force_multiplatform (root_toml : Toml) (cfg : Config)
    (h : new_config true root_toml = .ok cfg) :
    cfg.kotlin_multiplatform = true ∧
    ∃ cfg₀, tryIntoConfig (selectKotlinConfig root_toml) = .ok cfg₀ ∧
      (cfg₀.kotlin_targets = [] → cfg.kotlin_targets = defaultKotlinTargets) ∧
      (cfg₀.kotlin_targets ≠ [] → cfg.kotlin_targets = cfg₀.kotlin_targets) := by
  unfold new_config at h
  split at h
  case h_1 => exact Except.noConfusion h
  case h_2 cfg₀ heq =>
    rw [if_pos rfl] at h
    refine ⟨?_, cfg₀, heq, ?_, ?_⟩ <;> split at h <;> injection h with h <;> subst h
    · rfl
    · rfl
    · intro _; rfl
    · next hcond =>
        intro hemp
        exact absurd (by simp [hemp]) hcond
    · next hcond =>
        intro hne
        exact absurd (List.isEmpty_iff.mp (by simpa using hcond)) hne
    · intro _; rfl

/-- Closed witness for `new_config_force_multiplatform` at a concrete
document with an empty target list. -/
theorem new_config_force_multiplatform_witness :
    ∃ cfg, new_config true (Toml.table [("package_name", Toml.str "com.example.test")]) = .ok cfg ∧
      (cfg.kotlin_multiplatform = true ∧
       ∃ cfg₀, tryIntoConfig (selectKotlinConfig
           (Toml.table [("package_name", Toml.str "com.example.test")])) = .ok cfg₀ ∧
         (cfg₀.kotlin_targets = [] → cfg.kotlin_targets = defaultKotlinTargets) ∧
         (cfg₀.kotlin_targets ≠ [] → cfg.kotlin_targets = cfg₀.kotlin_targets)) := by
  refine ⟨{ package_name := some "com.example.test", cdylib_name := none,
            kotlin_multiplatform := true,
            kotlin_targets := defaultKotlinTargets, external_packages := [] },
          ?h, ?_⟩
  case h => rfl
  exact new_config_force_multiplatform _ _ (by rfl)

/-- C10 -- Without the force flag, `new_config` is exactly deserialization
of the selected sub-tree: the multi-target flag and the target list (empty
or not) come through unchanged. -/
theorem new_config_no_force (root_toml : Toml) :
    new_config false root_toml = tryIntoConfig (selectKotlinConfig root_toml) := by
  unfold new_config
  cases h0 : tryIntoConfig (selectKotlinConfig root_toml) <;> rfl

/-- C4 -- Shape precedence: when the document has a sub-tree at
`bindings.kotlin`, the result of `new_config` depends only on that sub-tree;
two documents with the same sub-tree and arbitrary (conflicting) root-level
keys resolve identically. -/
theorem new_config_nested_shadows_root (force : Bool) (doc₁ doc₂ sub : Toml)
    (h₁ : (doc₁.get "bindings").bind (fun b => b.get "kotlin") = some sub)
    (h₂ : (doc₂.get "bindings").bind (fun b => b.get "kotlin") = some sub) :
    new_config force doc₁ = new_config force doc₂ := by
  unfold new_config selectKotlinConfig
  rw [h₁, h₂]
  rfl

/-- Closed witness for `new_config_nested_shadows_root`: the same
`[bindings.kotlin]` sub-tree under two roots whose root-level keys
conflict with it. -/
theorem new_config_nested_shadows_root_witness :
    (((Toml.table [("bindings", Toml.table [("kotlin",
        Toml.table [("package_name", Toml.str "com.example.nested")])]),
       ("package_name", Toml.str "com.example.rootlevel")]).get "bindings").bind
        (fun b => b.get "kotlin") =
      some (Toml.table [("package_name", Toml.str "com.example.nested")])) ∧
    (((Toml.table [("bindings", Toml.table [("kotlin",
        Toml.table [("package_name", Toml.str "com.example.nested")])]),
       ("kotlin_multiplatform", Toml.bool true)]).get "bindings").bind
        (fun b => b.get "kotlin") =
      some (Toml.table [("package_name", Toml.str "com.example.nested")])) ∧
    new_config false
      (Toml.table [("bindings", Toml.table [("kotlin",
        Toml.table [("package_name", Toml.str "com.example.nested")])]),
       ("package_name", Toml.str "com.example.rootlevel")]) =
    new_config false
      (Toml.table [("bindings", Toml.table [("kotlin",
        Toml.table [("package_name", Toml.str "com.example.nested")])]),
       ("kotlin_multiplatform", Toml.bool true)]) := by
  refine ⟨rfl, rfl, ?_⟩
  exact new_config_nested_shadows_root false _ _ _ rfl rfl

theorem lookupKey_append_some {k v : String} {l₁ l₂ : List (String × String)}
    (h : lookupKey k l₁ = some v) : lookupKey k (l₁ ++ l₂) = some v := by
  induction l₁ with
  | nil => exact Option.noConfusion h
  | cons kv rest ih =>
    by_cases hk : kv.1 = k
    · simpa [lookupKey, hk] using h
    · rw [lookupKey] at h
      simpa [lookupKey, hk, ih] using ih (by simpa [hk] using h)

theorem lookupKey_append_none {k : String} {l₁ l₂ : List (String × String)}
    (h : lookupKey k l₁ = none) : lookupKey k (l₁ ++ l₂) = lookupKey k l₂ := by
  induction l₁ with
  | nil => rfl
  | cons kv rest ih =>
    by_cases hk : kv.1 = k
    · simp [lookupKey, hk] at h
    · rw [lookupKey] at h
      simpa [lookupKey, hk] using ih (by simpa [hk] using h)

theorem lookupKey_eq_none_iff {k : String} {l : List (String × String)} :
    lookupKey k l = none ↔ k ∉ l.map Prod.fst := by
  induction l with
  | nil => simp [lookupKey]
  | cons kv rest ih =>
    rw [List.map_cons, List.mem_cons]
    by_cases hk : kv.1 = k
    · simp [lookupKey, hk]
    · rw [lookupKey, if_neg hk, ih]
      constructor
      · intro h hor
        exact hor.elim (fun he => hk he.symm) h
      · intro h hm
        exact h (Or.inr hm)

theorem containsKey_eq_false_iff {k : String} {l : List (String × String)} :
    containsKey k l = false ↔ k ∉ l.map Prod.fst := by
  rw [containsKey, ← lookupKey_eq_none_iff]
  cases lookupKey k l <;> simp

theorem lookupKey_of_mem_nodup {k v : String} {l : List (String × String)}
    (hnd : (l.map Prod.fst).Nodup) (hmem : (k, v) ∈ l) :
    lookupKey k l = some v := by
  induction l with
  | nil => cases hmem
  | cons kv rest ih =>
    rcases List.mem_cons.mp hmem with heq | htail
    · simp [lookupKey, ← heq]
    · have hk : kv.1 ≠ k := by
        intro hk
        have : kv.1 ∈ rest.map Prod.fst := by
          rw [hk]
          exact List.mem_map.mpr ⟨(k, v), htail, rfl⟩
        exact (List.nodup_cons.mp (by simpa using hnd)).1 this
      simpa [lookupKey, hk] using ih (List.nodup_cons.mp (by simpa using hnd)).2 htail

theorem containsKey_append_single {k k' v : String}
    {m : List (String × String)} (h : k ≠ k') :
    containsKey k (m ++ [(k', v)]) = containsKey k m := by
  unfold containsKey
  cases hm : lookupKey k m with
  | some w => rw [lookupKey_append_some hm]
  | none =>
    rw [lookupKey_append_none hm]
    have hne : ¬k' = k := fun he => h he.symm
    simp [lookupKey, hne, hm]

theorem foldl_insertAbsent_eq (own : String) (ps : List (String × String)) :
    ∀ m, (ps.map Prod.fst).Nodup →
      ps.foldl (insertAbsent own) m = m ++ ps.filter (freshFor own m) := by
  induction ps with
  | nil => intro m _; simp
  | cons kv rest ih =>
    intro m hnd
    have hhead : kv.1 ∉ rest.map Prod.fst :=
      (List.nodup_cons.mp (by simpa using hnd)).1
    have htail : (rest.map Prod.fst).Nodup :=
      (List.nodup_cons.mp (by simpa using hnd)).2
    rw [List.foldl_cons]
    by_cases hf : freshFor own m kv = true
    · rw [insertAbsent, if_pos hf, ih (m ++ [kv]) htail]
      have hfilter : rest.filter (freshFor own (m ++ [kv])) =
          rest.filter (freshFor own m) := by
        apply List.filter_congr
        intro x hx
        have hne : x.1 ≠ kv.1 :=
          fun he => hhead (he ▸ List.mem_map.mpr ⟨x, hx, rfl⟩)
        show freshFor own (m ++ (kv.1, kv.2) :: []) x = freshFor own m x
        unfold freshFor
        rw [containsKey_append_single hne]
      rw [hfilter, List.filter_cons_of_pos hf, List.append_assoc,
        List.singleton_append]
    · rw [insertAbsent, if_neg hf, ih m htail,
        List.filter_cons_of_neg (Bool.not_eq_true _ ▸ hf)]

theorem hashMapFromIter_eq_self {l : List (String × String)}
    (hnd : (l.map Prod.fst).Nodup) : hashMapFromIter l = l := by
  induction l using List.reverseRecOn with
  | nil => rfl
  | append_singleton l x ih =>
    rw [List.map_append] at hnd
    have h1 : (l.map Prod.fst).Nodup := hnd.of_append_left
    have h2 : x.1 ∉ l.map Prod.fst := by
      intro hm
      exact (List.disjoint_of_nodup_append hnd) hm (by simp)
    rw [hashMapFromIter, List.foldl_append]
    rw [show List.foldl hashInsert [] l = l from ih h1]
    show hashInsert l x = l ++ [x]
    rw [hashInsert, if_neg]
    rw [containsKey_eq_false_iff.mpr h2]
    exact Bool.false_ne_true

theorem lookupKey_perm {l₁ l₂ : List (String × String)} (hp : l₁.Perm l₂) :
    (l₁.map Prod.fst).Nodup → ∀ k, lookupKey k l₁ = lookupKey k l₂ := by
  induction hp with
  | nil => intro _ _; rfl
  | cons kv _ ih =>
    intro hnd k
    obtain ⟨k', v⟩ := kv
    rw [List.map_cons] at hnd
    have htail := hnd.of_cons
    by_cases hk : k' = k <;> simp [lookupKey, hk, ih htail k]
  | swap x y t =>
    intro hnd k
    obtain ⟨kx, vx⟩ := x
    obtain ⟨ky, vy⟩ := y
    rw [List.map_cons, List.map_cons] at hnd
    have hxy : ky ≠ kx := by
      have h := (List.nodup_cons.mp hnd).1
      simp at h
      exact h.1
    by_cases h1 : ky = k <;> by_cases h2 : kx = k <;>
      simp [lookupKey, h1, h2]
    exact absurd (h1.trans h2.symm) hxy
  | trans hp1 _ ih1 ih2 =>
    intro hnd k
    rw [ih1 hnd k, ih2 ((hp1.map Prod.fst).nodup hnd) k]

theorem length_filter_ne_own {own : String} {l : List (String × String)}
    (hnd : (l.map Prod.fst).Nodup) (hm : own ∈ l.map Prod.fst) :
    (l.filter (fun kv => decide (kv.1 ≠ own))).length = l.length - 1 := by
  induction l with
  | nil => cases hm
  | cons kv rest ih =>
    have hhead : kv.1 ∉ rest.map Prod.fst :=
      (List.nodup_cons.mp (by simpa using hnd)).1
    have htail : (rest.map Prod.fst).Nodup :=
      (List.nodup_cons.mp (by simpa using hnd)).2
    by_cases hk : kv.1 = own
    · have hrest : rest.filter (fun kv => decide (kv.1 ≠ own)) = rest := by
        apply List.filter_eq_self.mpr
        intro x hx
        have hne : x.1 ≠ own := by
          intro he
          exact hhead (hk ▸ he ▸ List.mem_map.mpr ⟨x, hx, rfl⟩)
        exact decide_eq_true hne
      rw [List.filter_cons_of_neg (by simp [hk]), hrest]
      simp
    · have hmem : own ∈ rest.map Prod.fst := by
        rw [List.map_cons, List.mem_cons] at hm
        rcases hm with he | hr
        · exact absurd he.symm hk
        · exact hr
      have hpos : 0 < rest.length := by
        cases rest with
        | nil => cases hmem
        | cons _ _ => simp
      rw [List.filter_cons, if_pos (decide_eq_true hk), List.length_cons,
        ih htail hmem]
      simp only [List.length_cons]
      omega

theorem lookupKey_filter_ne_self {own : String} {l : List (String × String)} :
    lookupKey own (l.filter (fun kv => decide (kv.1 ≠ own))) = none := by
  rw [lookupKey_eq_none_iff]
  intro hm
  obtain ⟨kv, hkv, he⟩ := List.mem_map.mp hm
  have := List.of_mem_filter hkv
  rw [decide_eq_true_eq] at this
  exact this he

theorem lookupKey_foldl_insertAbsent {k v own : String}
    {ps : List (String × String)} :
    ∀ {m : List (String × String)}, lookupKey k m = some v →
      lookupKey k (ps.foldl (insertAbsent own) m) = some v := by
  induction ps with
  | nil => intro m h; exact h
  | cons kv rest ih =>
    intro m h
    rw [List.foldl_cons]
    apply ih
    unfold insertAbsent
    split
    · exact lookupKey_append_some h
    · exact h

/-- C1 -- Linker completeness: on a build whose components have pairwise
distinct crate names and no explicit external-package overrides, every
component's external package map after `update_component_configs` has
exactly N−1 entries, none for its own crate name, and for every other
component an entry equal to that component's resolved effective package
name. -/
theorem update_component_configs_complete (settings : GenerationSettings)
    (comps : List Component)
    (hext : ∀ c ∈ comps, c.config.external_packages = [])
    (hnd : (comps.map (fun c => c.ci.crate_name)).Nodup) :
    ∀ c' ∈ update_component_configs settings comps,
      c'.config.external_packages.length = comps.length - 1 ∧
      lookupKey c'.ci.crate_name c'.config.external_packages = none ∧
      ∀ b ∈ comps, b.ci.crate_name ≠ c'.ci.crate_name →
        lookupKey b.ci.crate_name c'.config.external_packages =
          some (b.config.package_name.getD ("uniffi." ++ b.ci.ns)) := by
  intro c' hc'
  unfold update_component_configs at hc'
  rw [List.mem_map] at hc'
  obtain ⟨c₁, hc₁, hlink⟩ := hc'
  rw [List.mem_map] at hc₁
  obtain ⟨c, hc, hres⟩ := hc₁
  subst hres
  subst hlink
  have hkeys : (((comps.map (resolve_names settings)).map
      (fun c => (c.ci.crate_name, c.config.package_name_eff))).map
        Prod.fst).Nodup := by
    rw [List.map_map, List.map_map]
    exact hnd
  have hplEq : packagesOf (comps.map (resolve_names settings)) =
      (comps.map (resolve_names settings)).map
        (fun c => (c.ci.crate_name, c.config.package_name_eff)) :=
    hashMapFromIter_eq_self hkeys
  have hci : (linkExternals (packagesOf (comps.map (resolve_names settings)))
      (resolve_names settings c)).ci = c.ci := rfl
  have hextEq : (linkExternals
      (packagesOf (comps.map (resolve_names settings)))
      (resolve_names settings c)).config.external_packages =
      ((comps.map (resolve_names settings)).map
        (fun c => (c.ci.crate_name, c.config.package_name_eff))).filter
        (fun kv => decide (kv.1 ≠ c.ci.crate_name)) := by
    show (packagesOf (comps.map (resolve_names settings))).foldl
        (insertAbsent c.ci.crate_name) c.config.external_packages = _
    rw [hplEq, hext c hc,
      foldl_insertAbsent_eq c.ci.crate_name _ [] hkeys, List.nil_append]
    apply List.filter_congr
    intro x _
    simp [freshFor, containsKey, lookupKey]
  have hmemKey : c.ci.crate_name ∈
      ((comps.map (resolve_names settings)).map
        (fun c => (c.ci.crate_name, c.config.package_name_eff))).map
        Prod.fst := by
    rw [List.map_map, List.map_map]
    exact List.mem_map.mpr ⟨c, hc, rfl⟩
  rw [hci, hextEq]
  refine ⟨?_, lookupKey_filter_ne_self, ?_⟩
  · rw [length_filter_ne_own hkeys hmemKey]
    simp
  · intro b hb hbne
    have hmem_e : (b.ci.crate_name,
        b.config.package_name.getD ("uniffi." ++ b.ci.ns)) ∈
        (comps.map (resolve_names settings)).map
          (fun c => (c.ci.crate_name, c.config.package_name_eff)) :=
      List.mem_map.mpr ⟨resolve_names settings b,
        List.mem_map.mpr ⟨b, hb, rfl⟩, rfl⟩
    have hmem_f : (b.ci.crate_name,
        b.config.package_name.getD ("uniffi." ++ b.ci.ns)) ∈
        ((comps.map (resolve_names settings)).map
          (fun c => (c.ci.crate_name, c.config.package_name_eff))).filter
          (fun kv => decide (kv.1 ≠ c.ci.crate_name)) :=
      List.mem_filter.mpr ⟨hmem_e, by simpa using hbne⟩
    have hndf : ((((comps.map (resolve_names settings)).map
        (fun c => (c.ci.crate_name, c.config.package_name_eff))).filter
          (fun kv => decide (kv.1 ≠ c.ci.crate_name))).map Prod.fst).Nodup :=
      ((List.filter_sublist _).map Prod.fst).nodup hkeys
    exact lookupKey_of_mem_nodup hndf hmem_f

/-- Closed witness for `update_component_configs_complete` on a two-component
build with no overrides. -/
theorem update_component_configs_complete_witness :
    ((⟨⟨"alpha", "crate_a"⟩, ⟨some "uniffi.alpha", some "uniffi_alpha", false,
        [], [("crate_b", "com.b")]⟩⟩ : Component).config.external_packages.length =
      ([⟨⟨"alpha", "crate_a"⟩, ⟨none, none, false, [], []⟩⟩,
        ⟨⟨"beta", "crate_b"⟩, ⟨some "com.b", none, false, [], []⟩⟩] :
        List Component).length - 1) ∧
    lookupKey "crate_a" [("crate_b", "com.b")] = none ∧
    lookupKey "crate_b" [("crate_b", "com.b")] =
      some ((some "com.b").getD ("uniffi." ++ "beta")) := by
  have h := update_component_configs_complete ⟨none, "out", false⟩
    [⟨⟨"alpha", "crate_a"⟩, ⟨none, none, false, [], []⟩⟩,
     ⟨⟨"beta", "crate_b"⟩, ⟨some "com.b", none, false, [], []⟩⟩]
    (by decide) (by decide)
    ⟨⟨"alpha", "crate_a"⟩, ⟨some "uniffi.alpha", some "uniffi_alpha", false,
      [], [("crate_b", "com.b")]⟩⟩ (by decide)
  exact ⟨h.1, h.2.1,
    h.2.2 ⟨⟨"beta", "crate_b"⟩, ⟨some "com.b", none, false, [], []⟩⟩
      (by decide) (by decide)⟩

/-- C2 -- Linker non-overwrite: an entry already present in a component's
external package map before linking is unchanged by
`update_component_configs`, whatever the other components resolve to. -/
theorem update_component_configs_no_overwrite
    (settings : GenerationSettings) (comps : List Component) (i : Nat)
    (c c' : Component) (k v : String)
    (h1 : comps[i]? = some c)
    (h2 : (update_component_configs settings comps)[i]? = some c')
    (h3 : lookupKey k c.config.external_packages = some v) :
    lookupKey k c'.config.external_packages = some v := by
  unfold update_component_configs at h2
  rw [List.getElem?_map, List.getElem?_map, h1, Option.map_some',
    Option.map_some'] at h2
  injection h2 with h2
  subst h2
  show lookupKey k ((packagesOf (comps.map (resolve_names settings))).foldl
    (insertAbsent c.ci.crate_name) c.config.external_packages) = some v
  exact lookupKey_foldl_insertAbsent h3

/-- Closed witness for `update_component_configs_no_overwrite`: a
user-supplied mapping for `crate_b` survives linking although `crate_b`
resolves to a different package name. -/
theorem update_component_configs_no_overwrite_witness :
    lookupKey "crate_b" ((⟨⟨"alpha", "crate_a"⟩,
      ⟨some "uniffi.alpha", some "uniffi_alpha", false, [],
        [("crate_b", "user.pkg")]⟩⟩ : Component).config.external_packages) =
      some "user.pkg" := by
  exact update_component_configs_no_overwrite ⟨none, "out", false⟩
    [⟨⟨"alpha", "crate_a"⟩, ⟨none, none, false, [], [("crate_b", "user.pkg")]⟩⟩,
     ⟨⟨"beta", "crate_b"⟩, ⟨some "real.b", none, false, [], []⟩⟩] 0
    ⟨⟨"alpha", "crate_a"⟩, ⟨none, none, false, [], [("crate_b", "user.pkg")]⟩⟩
    ⟨⟨"alpha", "crate_a"⟩, ⟨some "uniffi.alpha", some "uniffi_alpha", false, [],
      [("crate_b", "user.pkg")]⟩⟩
    "crate_b" "user.pkg" (by decide) (by decide) (by decide)

/-- C5 -- After `update_component_configs` every component's package name is
its explicit one if set, else `uniffi.<namespace>`, and its artifact name is
its explicit one if set, else the build-wide cdylib if supplied, else
`uniffi_<namespace>`. -/
theorem update_component_configs_names (settings : GenerationSettings)
    (comps : List Component) (i : Nat) (c c' : Component)
    (h1 : comps[i]? = some c)
    (h2 : (update_component_configs settings comps)[i]? = some c') :
    c'.ci = c.ci ∧
    c'.config.package_name =
      some (c.config.package_name.getD ("uniffi." ++ c.ci.ns)) ∧
    c'.config.cdylib_name =
      some (c.config.cdylib_name.getD
        (settings.cdylib.getD ("uniffi_" ++ c.ci.ns))) := by
  unfold update_component_configs at h2
  rw [List.getElem?_map, List.getElem?_map, h1, Option.map_some',
    Option.map_some'] at h2
  injection h2 with h2
  subst h2
  exact ⟨rfl, rfl, rfl⟩

/-- Closed witness for `update_component_configs_names`: one component with
no explicit names and a build-wide cdylib name. -/
theorem update_component_configs_names_witness :
    ((⟨⟨"alpha", "crate_a"⟩, ⟨some "uniffi.alpha", some "mylib", false, [],
        []⟩⟩ : Component).ci = (⟨"alpha", "crate_a"⟩ : ComponentInterface)) ∧
    ((⟨⟨"alpha", "crate_a"⟩, ⟨some "uniffi.alpha", some "mylib", false, [],
        []⟩⟩ : Component).config.package_name =
      some ((none : Option String).getD ("uniffi." ++ "alpha"))) ∧
    ((⟨⟨"alpha", "crate_a"⟩, ⟨some "uniffi.alpha", some "mylib", false, [],
        []⟩⟩ : Component).config.cdylib_name =
      some ((none : Option String).getD
        ((some "mylib").getD ("uniffi_" ++ "alpha")))) := by
  exact update_component_configs_names ⟨some "mylib", "out", false⟩
    [⟨⟨"alpha", "crate_a"⟩, ⟨none, none, false, [], []⟩⟩] 0
    ⟨⟨"alpha", "crate_a"⟩, ⟨none, none, false, [], []⟩⟩
    ⟨⟨"alpha", "crate_a"⟩, ⟨some "uniffi.alpha", some "mylib", false, [], []⟩⟩
    (by decide) (by decide)

/-- C7 -- Order independence of linking: running
`update_component_configs` on any permutation of the component list gives,
for each component (identified by its interface, unique by the distinct
crate names), the same package name, artifact name, remaining config
fields, and the same external package map (as a map, i.e. pointwise equal
lookups). -/
theorem update_component_configs_perm (settings : GenerationSettings)
    (l₁ l₂ : List Component) (hp : l₁.Perm l₂)
    (hnd : (l₁.map (fun c => c.ci.crate_name)).Nodup) :
    ∀ c₁ ∈ update_component_configs settings l₁,
    ∀ c₂ ∈ update_component_configs settings l₂,
      c₁.ci = c₂.ci →
      c₁.config.package_name = c₂.config.package_name ∧
      c₁.config.cdylib_name = c₂.config.cdylib_name ∧
      c₁.config.kotlin_multiplatform = c₂.config.kotlin_multiplatform ∧
      c₁.config.kotlin_targets = c₂.config.kotlin_targets ∧
      ∀ k, lookupKey k c₁.config.external_packages =
        lookupKey k c₂.config.external_packages := by
  intro c₁ hc₁ c₂ hc₂ hci
  unfold update_component_configs at hc₁ hc₂
  rw [List.mem_map] at hc₁ hc₂
  obtain ⟨d₁, hd₁, hl₁⟩ := hc₁
  obtain ⟨d₂, hd₂, hl₂⟩ := hc₂
  rw [List.mem_map] at hd₁ hd₂
  obtain ⟨a₁, ha₁, hr₁⟩ := hd₁
  obtain ⟨a₂, ha₂, hr₂⟩ := hd₂
  subst hr₁
  subst hr₂
  subst hl₁
  subst hl₂
  have haci : a₁.ci = a₂.ci := hci
  have haeq : a₁ = a₂ :=
    List.inj_on_of_nodup_map hnd ha₁ (hp.mem_iff.mpr ha₂) (by rw [haci])
  subst haeq
  refine ⟨rfl, rfl, rfl, rfl, ?_⟩
  intro k
  have hnd₂ : (l₂.map (fun c => c.ci.crate_name)).Nodup :=
    (hp.map (fun c => c.ci.crate_name)).nodup hnd
  have hkeys₁ : (((l₁.map (resolve_names settings)).map
      (fun c => (c.ci.crate_name, c.config.package_name_eff))).map
        Prod.fst).Nodup := by
    rw [List.map_map, List.map_map]
    exact hnd
  have hkeys₂ : (((l₂.map (resolve_names settings)).map
      (fun c => (c.ci.crate_name, c.config.package_name_eff))).map
        Prod.fst).Nodup := by
    rw [List.map_map, List.map_map]
    exact hnd₂
  have hpl₁ : packagesOf (l₁.map (resolve_names settings)) =
      (l₁.map (resolve_names settings)).map
        (fun c => (c.ci.crate_name, c.config.package_name_eff)) :=
    hashMapFromIter_eq_self hkeys₁
  have hpl₂ : packagesOf (l₂.map (resolve_names settings)) =
      (l₂.map (resolve_names settings)).map
        (fun c => (c.ci.crate_name, c.config.package_name_eff)) :=
    hashMapFromIter_eq_self hkeys₂
  have hperm : ((l₁.map (resolve_names settings)).map
      (fun c => (c.ci.crate_name, c.config.package_name_eff))).Perm
      ((l₂.map (resolve_names settings)).map
        (fun c => (c.ci.crate_name, c.config.package_name_eff))) :=
    (hp.map (resolve_names settings)).map
      (fun c => (c.ci.crate_name, c.config.package_name_eff))
  show lookupKey k ((packagesOf (l₁.map (resolve_names settings))).foldl
      (insertAbsent a₁.ci.crate_name) a₁.config.external_packages) =
    lookupKey k ((packagesOf (l₂.map (resolve_names settings))).foldl
      (insertAbsent a₁.ci.crate_name) a₁.config.external_packages)
  rw [hpl₁, hpl₂, foldl_insertAbsent_eq _ _ _ hkeys₁,
    foldl_insertAbsent_eq _ _ _ hkeys₂]
  cases hm : lookupKey k a₁.config.external_packages with
  | some w => rw [lookupKey_append_some hm, lookupKey_append_some hm]
  | none =>
    rw [lookupKey_append_none hm, lookupKey_append_none hm]
    exact lookupKey_perm
      (List.Perm.filter _ hperm)
      (((List.filter_sublist _).map Prod.fst).nodup hkeys₁) k

/-- Closed witness for `update_component_configs_perm`: a two-component
build and its transposition give the same linked configuration for the
first component. -/
theorem update_component_configs_perm_witness :
    ((⟨⟨"alpha", "crate_a"⟩, ⟨some "uniffi.alpha", some "uniffi_alpha", false,
        [], [("crate_b", "uniffi.beta")]⟩⟩ : Component).config.package_name =
      (⟨⟨"alpha", "crate_a"⟩, ⟨some "uniffi.alpha", some "uniffi_alpha", false,
        [], [("crate_b", "uniffi.beta")]⟩⟩ : Component).config.package_name) ∧
    ((⟨⟨"alpha", "crate_a"⟩, ⟨some "uniffi.alpha", some "uniffi_alpha", false,
        [], [("crate_b", "uniffi.beta")]⟩⟩ : Component).config.cdylib_name =
      (⟨⟨"alpha", "crate_a"⟩, ⟨some "uniffi.alpha", some "uniffi_alpha", false,
        [], [("crate_b", "uniffi.beta")]⟩⟩ : Component).config.cdylib_name) ∧
    lookupKey "crate_b" [("crate_b", "uniffi.beta")] =
      lookupKey "crate_b" [("crate_b", "uniffi.beta")] := by
  have h := update_component_configs_perm ⟨none, "out", false⟩
    [⟨⟨"alpha", "crate_a"⟩, ⟨none, none, false, [], []⟩⟩,
     ⟨⟨"beta", "crate_b"⟩, ⟨none, none, false, [], []⟩⟩]
    [⟨⟨"beta", "crate_b"⟩, ⟨none, none, false, [], []⟩⟩,
     ⟨⟨"alpha", "crate_a"⟩, ⟨none, none, false, [], []⟩⟩]
    (List.Perm.swap _ _ _) (by decide)
    ⟨⟨"alpha", "crate_a"⟩, ⟨some "uniffi.alpha", some "uniffi_alpha", false,
      [], [("crate_b", "uniffi.beta")]⟩⟩ (by decide)
    ⟨⟨"alpha", "crate_a"⟩, ⟨some "uniffi.alpha", some "uniffi_alpha", false,
      [], [("crate_b", "uniffi.beta")]⟩⟩ (by decide) rfl
  exact ⟨h.1, h.2.1, h.2.2.2.2 "crate_b"⟩

/-- C6 -- Destination layout: with an explicit package name the file path
is `out_dir / <variant>Main / kotlin / <package segments> /
<namespace>.<variant>.kt` in multiplatform mode and
`out_dir / main / kotlin / ...` otherwise; with multiplatform disabled the
`common` and `jvm` variants land in the same directory but at distinct
file paths. -/
theorem write_bindings_target_dest (ci : ComponentInterface)
    (settings : GenerationSettings) (config : Config) (pkg target : String)
    (hpkg : config.package_name = some pkg) :
    (config.kotlin_multiplatform = true →
      destFilePath ci settings config target =
        settings.out_dir :: (target ++ "Main") :: "kotlin" ::
          (pkg.splitOn "." ++ [ci.ns ++ "." ++ target ++ ".kt"])) ∧
    (config.kotlin_multiplatform = false →
      destFilePath ci settings config target =
        settings.out_dir :: "main" :: "kotlin" ::
          (pkg.splitOn "." ++ [ci.ns ++ "." ++ target ++ ".kt"])) ∧
    (config.kotlin_multiplatform = false →
      destDir settings config "common" = destDir settings config "jvm" ∧
      destFilePath ci settings config "common" ≠
        destFilePath ci settings config "jvm") := by
  refine ⟨?_, ?_, ?_⟩
  · intro hm
    simp [destFilePath, destDir, sourceSetName, bindingFileName, hm,
      Config.package_name_eff, hpkg]
  · intro hm
    simp [destFilePath, destDir, sourceSetName, bindingFileName, hm,
      Config.package_name_eff, hpkg]
  · intro hm
    have hd : destDir settings config "common" = destDir settings config "jvm" := by
      simp [destDir, sourceSetName, hm]
    refine ⟨hd, ?_⟩
    intro he
    unfold destFilePath at he
    rw [hd] at he
    have h2 := List.append_cancel_left he
    have h3 : bindingFileName ci "common" = bindingFileName ci "jvm" := by
      simpa using h2
    have h4 := congrArg String.length h3
    unfold bindingFileName at h4
    rw [String.length_append, String.length_append, String.length_append,
      String.length_append, String.length_append, String.length_append] at h4
    have e1 : ("." : String).length = 1 := rfl
    have e2 : (".kt" : String).length = 3 := rfl
    have e3 : ("common" : String).length = 6 := rfl
    have e4 : ("jvm" : String).length = 3 := rfl
    rw [e1, e2, e3, e4] at h4
    omega

/-- Closed witness for `write_bindings_target_dest` at a concrete
configuration. -/
theorem write_bindings_target_dest_witness :
    ((⟨some "com.example.test", none, false, [], []⟩ : Config).package_name =
      some "com.example.test") ∧
    ((⟨some "com.example.test", none, false, [], []⟩ :
        Config).kotlin_multiplatform = false →
      destFilePath ⟨"mylib", "crate_mylib"⟩ ⟨none, "out", false⟩
        ⟨some "com.example.test", none, false, [], []⟩ "common" =
        "out" :: "main" :: "kotlin" ::
          (("com.example.test").splitOn "." ++
            ["mylib" ++ "." ++ "common" ++ ".kt"])) := by
  refine ⟨rfl, ?_⟩
  exact (write_bindings_target_dest ⟨"mylib", "crate_mylib"⟩
    ⟨none, "out", false⟩ ⟨some "com.example.test", none, false, [], []⟩
    "com.example.test" "common" rfl).2.1

/-- Counterexample to C9 as stated: with formatting enabled and the
formatter process exiting with status 1, the trace is exactly directory
creation, file write and formatter invocation — no warning appears. Lines
161-166 of `lib.rs` warn only when `Command::output()` itself returns
`Err` (e.g. a missing executable); a non-zero exit status comes back as
`Ok` and is silently ignored. -/
theorem write_bindings_target_nonzero_exit_no_warning :
    write_bindings_target_fmt (KtlintOutcome.exited 1)
      ⟨"mylib", "crate_mylib"⟩ ⟨none, "out", true⟩
      ⟨some "com.b", none, false, [], []⟩ "common" "class Foo" =
      [IOEvent.createDir (destDir ⟨none, "out", true⟩
        ⟨some "com.b", none, false, [], []⟩ "common"),
       IOEvent.fileWrite (destFilePath ⟨"mylib", "crate_mylib"⟩
        ⟨none, "out", true⟩ ⟨some "com.b", none, false, [], []⟩ "common")
        "class Foo",
       IOEvent.formatInvoke (destFilePath ⟨"mylib", "crate_mylib"⟩
        ⟨none, "out", true⟩ ⟨some "com.b", none, false, [], []⟩
        "common")] := by
  rfl

/-- C9 (amended) -- Formatter isolation: with formatting enabled, the
trace starts with the directory creation and the write of the full
content, the formatter is invoked only after the write, a formatter
spawn failure (missing executable) changes the trace only by appending a
warning, and a non-zero formatter exit status changes nothing (it is
silently ignored, no warning) — the writer has no failure outcome and the
written content does not depend on the formatter result. -/
theorem write_bindings_target_formatter_amended (ktlint : KtlintOutcome)
    (ci : ComponentInterface) (settings : GenerationSettings)
    (config : Config) (target content : String)
    (hfmt : settings.try_format_code = true) :
    ((write_bindings_target_fmt ktlint ci settings config target
        content).take 3 =
      [IOEvent.createDir (destDir settings config target),
       IOEvent.fileWrite (destFilePath ci settings config target) content,
       IOEvent.formatInvoke (destFilePath ci settings config target)]) ∧
    (write_bindings_target_fmt KtlintOutcome.spawnError ci settings config
        target content =
      write_bindings_target_fmt (KtlintOutcome.exited 0) ci settings config
        target content ++
        [IOEvent.warnFormat (destFilePath ci settings config target)]) ∧
    (∀ code : Nat,
      write_bindings_target_fmt (KtlintOutcome.exited code) ci settings
        config target content =
      write_bindings_target_fmt (KtlintOutcome.exited 0) ci settings config
        target content) := by
  unfold write_bindings_target_fmt
  rw [hfmt]
  cases ktlint <;> simp

/-- Closed witness for `write_bindings_target_formatter_amended` at a
concrete component with formatting enabled and the formatter exiting with
status 1. -/
theorem write_bindings_target_formatter_amended_witness :
    ((write_bindings_target_fmt (KtlintOutcome.exited 1)
        ⟨"mylib", "crate_mylib"⟩ ⟨none, "out", true⟩
        ⟨some "com.b", none, false, [], []⟩ "common" "class Foo").take 3 =
      [IOEvent.createDir (destDir ⟨none, "out", true⟩
        ⟨some "com.b", none, false, [], []⟩ "common"),
       IOEvent.fileWrite (destFilePath ⟨"mylib", "crate_mylib"⟩
        ⟨none, "out", true⟩ ⟨some "com.b", none, false, [], []⟩ "common")
        "class Foo",
       IOEvent.formatInvoke (destFilePath ⟨"mylib", "crate_mylib"⟩
        ⟨none, "out", true⟩ ⟨some "com.b", none, false, [], []⟩
        "common")]) ∧
    (write_bindings_target_fmt KtlintOutcome.spawnError
        ⟨"mylib", "crate_mylib"⟩ ⟨none, "out", true⟩
        ⟨some "com.b", none, false, [], []⟩ "common" "class Foo" =
      write_bindings_target_fmt (KtlintOutcome.exited 0)
        ⟨"mylib", "crate_mylib"⟩ ⟨none, "out", true⟩
        ⟨some "com.b", none, false, [], []⟩ "common" "class Foo" ++
        [IOEvent.warnFormat (destFilePath ⟨"mylib", "crate_mylib"⟩
          ⟨none, "out", true⟩ ⟨some "com.b", none, false, [], []⟩
          "common")]) ∧
    (write_bindings_target_fmt (KtlintOutcome.exited 1)
        ⟨"mylib", "crate_mylib"⟩ ⟨none, "out", true⟩
        ⟨some "com.b", none, false, [], []⟩ "common" "class Foo" =
      write_bindings_target_fmt (KtlintOutcome.exited 0)
        ⟨"mylib", "crate_mylib"⟩ ⟨none, "out", true⟩
        ⟨some "com.b", none, false, [], []⟩ "common" "class Foo") := by
  have h := write_bindings_target_formatter_amended (KtlintOutcome.exited 1)
    ⟨"mylib", "crate_mylib"⟩ ⟨none, "out", true⟩
    ⟨some "com.b", none, false, [], []⟩ "common" "class Foo" rfl
  exact ⟨h.1, h.2.1, h.2.2 1⟩

/-- C8 -- A generator failure aborts the run: the returned error carries
the failing component's namespace, the components before the failure have
been emitted, and the result is independent of the components after the
failure (they are not processed). -/
theorem write_bindings_aborts
    (gen : Config → ComponentInterface → Except String Bindings)
    (kf : Bool) (settings : GenerationSettings)
    (pre post : List Component) (c : Component) (m : String)
    (hpre : ∀ p ∈ pre, ∃ b, gen p.config p.ci = Except.ok b)
    (hfail : gen c.config c.ci = Except.error m) :
    write_bindings gen kf settings (pre ++ c :: post) =
      (pre.flatMap (fun p =>
        match gen p.config p.ci with
        | .ok b => componentWrites kf settings p b
        | .error _ => []), some ⟨c.ci.ns, m⟩) := by
  induction pre with
  | nil =>
    simp [write_bindings, generate_bindings, hfail]
  | cons p rest ih =>
    obtain ⟨b, hb⟩ := hpre p (by simp)
    rw [List.cons_append, write_bindings]
    rw [show generate_bindings gen p.config p.ci = Except.ok b by
      simp [generate_bindings, hb]]
    rw [ih (fun q hq => hpre q (by simp [hq]))]
    simp [hb]

/-- Closed witness for `write_bindings_aborts`: one successful component,
then a failing one, then one that must not be processed. -/
theorem write_bindings_aborts_witness :
    write_bindings genOracleW true ⟨none, "out", false⟩
      ([⟨⟨"good", "crate_good"⟩, ⟨some "com.g", none, false, [], []⟩⟩] ++
        ⟨⟨"bad", "crate_bad"⟩, ⟨some "com.b", none, false, [], []⟩⟩ ::
        [⟨⟨"later", "crate_later"⟩, ⟨some "com.l", none, false, [], []⟩⟩]) =
      (([⟨⟨"good", "crate_good"⟩, ⟨some "com.g", none, false, [], []⟩⟩] :
          List Component).flatMap (fun p =>
        match genOracleW p.config p.ci with
        | .ok b => componentWrites true ⟨none, "out", false⟩ p b
        | .error _ => []), some ⟨"bad", "boom"⟩) := by
  exact write_bindings_aborts genOracleW true ⟨none, "out", false⟩
    [⟨⟨"good", "crate_good"⟩, ⟨some "com.g", none, false, [], []⟩⟩]
    [⟨⟨"later", "crate_later"⟩, ⟨some "com.l", none, false, [], []⟩⟩]
    ⟨⟨"bad", "crate_bad"⟩, ⟨some "com.b", none, false, [], []⟩⟩ "boom"
    (by
      intro p hp
      rw [List.mem_singleton] at hp
      subst hp
      exact ⟨⟨"text", none, none, none, none, none⟩, rfl⟩)
    rfl
